import Mathlib

/-!
Verification of the url-shorter repository (shorter.py, libsqlite.py).

The Python source is shallowly embedded: the SQLite tables `mapper` and
`users` become lists of rows, the redis cache becomes a list of key-value
pairs plus a membership list for the `us_auth` set, and each handler or
database method becomes a pure Lean function over those states.  Python
exceptions (TypeError, IndexError, ValueError, sqlite IntegrityError) are
modelled with `Except PyError`.  Randomness (`random.random()`) and the
SHA-256 digest of an encoded input are passed in explicitly as arguments,
so every definition stays executable.
-/

namespace UrlShorter

/-- Python exceptions that the embedded code can raise. -/
inductive PyError where
  | typeError (msg : String)
  | indexError
  | valueError
  | integrityError
deriving DecidableEq

/-- A row of the `mapper` table (libsqlite.py `_CREATE_STATEMENT`):
`short_name` TEXT PRIMARY KEY, `from_user` INTEGER, `target_url` TEXT UNIQUE,
`create_date` INTEGER. -/
structure MapperRow where
  short_name : String
  from_user : Int
  target_url : String
  create_date : Int
deriving DecidableEq

/-- A row of the `users` table: `id` INTEGER, `string` TEXT PRIMARY KEY/UNIQUE,
`is_super_user` INTEGER DEFAULT 0. -/
structure UserRow where
  id : Int
  string : String
  is_super_user : Bool
deriving DecidableEq

/-- `hashlib.sha256(s)` applied to a Python `str` that was never `.encode()`d:
CPython unconditionally raises `TypeError: Strings must be encoded before
hashing`.  `UrlDatabase.generate_string` (libsqlite.py:142) and
`UrlDatabase.insert_url` (libsqlite.py:150) build an f-string
`f'{url}{random.random()}'` and pass it to `hashlib.sha256` without
`.encode()`, unlike `insert_authorized_key` (libsqlite.py:121) which does
encode.  The argument is the url concatenated with the rendered random salt. -/
def sha256_of_str (_s : String) : Except PyError (List Nat) :=
  .error (.typeError "Strings must be encoded before hashing")

/-- The base62 alphabet used by `base62.encodebytes` (python base62 package). -/
def base62_chars : String := "0123456789ABCDEFGHIJKLMNOPQRSTUVWXYZabcdefghijklmnopqrstuvwxyz"

/-- Little-endian base62 digits of a natural number. -/
def nat_to_base62_rev (n : Nat) : List Char :=
  if h : n = 0 then []
  else base62_chars.toList.getD (n % 62) '?' :: nat_to_base62_rev (n / 62)
decreasing_by exact Nat.div_lt_self (Nat.pos_of_ne_zero h) (by norm_num)

/-- Big-endian interpretation of a byte string as a natural number
(`int.from_bytes(b, 'big')`); digest bytes are below 256. -/
def bytes_to_nat (l : List Nat) : Nat :=
  l.foldl (fun acc b => acc * 256 + b) 0

/-- `base62.encodebytes`: interpret the bytes as a big-endian integer and
write it in base 62 (`'0'` for zero). -/
def base62_encodebytes (l : List Nat) : String :=
  let n := bytes_to_nat l
  if n = 0 then "0" else String.mk (nat_to_base62_rev n).reverse

/-- The lowercase hex alphabet of `hashlib`'s `hexdigest`. -/
def hex_chars : String := "0123456789abcdef"

/-- The two hex characters of one digest byte (bytes are below 256). -/
def hex_byte (b : Nat) : List Char :=
  [hex_chars.toList.getD (b / 16) '?', hex_chars.toList.getD (b % 16) '?']

/-- The character list of a hexdigest: two hex characters per byte. -/
def hex_of_bytes (digest : List Nat) : List Char :=
  (digest.map hex_byte).flatten

/-- `hashlib.sha256(...).hexdigest()`: the digest bytes rendered as lowercase
hex, two characters per byte.  The 32 digest bytes themselves are passed in
as `digest` (they depend on `random.random()`). -/
def hexdigest (digest : List Nat) : String :=
  String.mk (hex_of_bytes digest)

/-- `UrlDatabase.insert_url` (libsqlite.py:144-156).  First a dedup lookup
`SELECT "short_name" FROM "mapper" WHERE "target_url" = ?`; if a row exists
its code is returned unchanged.  Otherwise the code computes
`hashlib.sha256(f'{original_url}{random.random()}')` — on a `str`, so this
raises TypeError — and would take the first 10 base62 characters of the
digest and INSERT the row (PRIMARY KEY "short_name": a colliding code would
raise IntegrityError; there is no retry loop).  `salt` is the rendered
`random.random()` and `now` is `int(time.time())`. -/
def insert_url (mapper : List MapperRow) (original_url : String) (from_user : Int)
    (salt : String) (now : Int) : Except PyError (String × List MapperRow) :=
  match mapper.find? (fun row => row.target_url == original_url) with
  | some row => .ok (row.short_name, mapper)
  | none =>
    match sha256_of_str (original_url ++ salt) with
    | .error e => .error e
    | .ok hash_value =>
      let r := (base62_encodebytes hash_value).take 10
      if mapper.any (fun row => row.short_name == r) then
        .error .integrityError
      else
        .ok (r, mapper ++ [⟨r, from_user, original_url, now⟩])

/-- `UrlDatabase.StatusCode` (libsqlite.py:104-106). -/
inductive StatusCode where
  | NotOwner
  | NotFound
deriving DecidableEq

/-- `UrlDatabase.delete_url` (libsqlite.py:158-169).  Both statements say
`WHERE "short_url" = ?`, but the `mapper` table has no column `short_url`
(the column is `short_name`), so SQLite's double-quoted-string fallback
turns `"short_url"` into the string literal `'short_url'`: the WHERE clause
compares that constant with the bound parameter independently of every row.
Hence the SELECT matches all rows when the parameter is the literal string
"short_url" (fetchone takes the first) and no row otherwise, and the DELETE
deletes all rows or none under the same condition. -/
def delete_url (mapper : List MapperRow) (short_url : String) (from_user : Int) :
    Option StatusCode × List MapperRow :=
  let selected := if ("short_url" : String) == short_url then mapper.head? else none
  match selected with
  | none => (some StatusCode.NotFound, mapper)
  | some row =>
    if !(row.from_user == from_user) then (some StatusCode.NotOwner, mapper)
    else
      let remaining := if ("short_url" : String) == short_url then ([] : List MapperRow) else mapper
      (none, remaining)

/-- `UrlDatabase.query_url` (libsqlite.py:171-177):
`SELECT "target_url" FROM "mapper" WHERE "short_name" = ?`, first row or None. -/
def query_url (mapper : List MapperRow) (short_name : String) : Option String :=
  match mapper.find? (fun row => row.short_name == short_name) with
  | some row => some row.target_url
  | none => none

/-- `UrlDatabase.insert_authorized_key` (libsqlite.py:119-125).  `digest` is
`sha256(f'{user_id}{random.random()}'.encode()).digest()`; the stored token
`s` is its hexdigest.  INSERT INTO "users" VALUES (user_id, s, super_user),
then commit; "string" is the primary key, so inserting an existing token
raises IntegrityError. -/
def insert_authorized_key (users : List UserRow) (user_id : Int) (digest : List Nat)
    (super_user : Bool) : Except PyError (String × List UserRow) :=
  let s := hexdigest digest
  if users.any (fun row => row.string == s) then .error .integrityError
  else .ok (s, users ++ [⟨user_id, s, super_user⟩])

/-- `UrlDatabase.update_authorized_key` (libsqlite.py:127-133).
`UPDATE "users" SET "string" = ? WHERE "id" = ?`, then commit, and the fresh
hexdigest is returned whether or not any row matched.  The UNIQUE/PRIMARY KEY
constraint on "string" makes the UPDATE raise IntegrityError if it would
write the same token into two rows or duplicate another row's token. -/
def update_authorized_key (users : List UserRow) (user_id : Int) (digest : List Nat) :
    Except PyError (String × List UserRow) :=
  let s := hexdigest digest
  let touched := users.filter (fun row => row.id == user_id)
  if 2 ≤ touched.length ∨
     (touched.length = 1 ∧ users.any (fun row => !(row.id == user_id) && row.string == s)) then
    .error .integrityError
  else
    .ok (s, users.map (fun row => if row.id == user_id then { row with string := s } else row))

/-- `UrlDatabase.delete_user` (libsqlite.py:135-138).  The DELETE executes,
but the method never calls `db.commit()`; when the `aiosqlite.connect`
context closes the connection, the open transaction is rolled back, so the
durable `users` table is unchanged. -/
def delete_user (users : List UserRow) (user_id : Int) : List UserRow :=
  let in_transaction := users.filter (fun row => !(row.id == user_id))
  let _ := in_transaction
  users

/-- Python `str.split(maxsplit=1)` (whitespace split): skip leading
whitespace, take the first whitespace-free field, consume the separator run,
return the remainder verbatim; an empty remainder or input yields fewer than
two elements. -/
def py_split_ws1 (s : String) : List String :=
  let t := s.toList.dropWhile (fun c => c.isWhitespace)
  if t.isEmpty then []
  else
    let first := t.takeWhile (fun c => !c.isWhitespace)
    let rest := (t.dropWhile (fun c => !c.isWhitespace)).dropWhile (fun c => c.isWhitespace)
    if rest.isEmpty then [String.mk first] else [String.mk first, String.mk rest]

/-- Split a character list at every occurrence of `sep` (no collapsing of
adjacent separators, like Python `str.split(sep)` with an explicit
separator). -/
def split_char (sep : Char) : List Char → List (List Char)
  | [] => [[]]
  | c :: cs =>
    let r := split_char sep cs
    if c == sep then [] :: r
    else
      match r with
      | [] => [[c]]
      | h :: t => (c :: h) :: t

/-- Python `str.split(':')`. -/
def py_split_colon (s : String) : List String :=
  (split_char ':' s.toList).map String.mk

/-- Python list indexing `l[i]`: IndexError when out of range. -/
def py_index (l : List String) (i : Nat) : Except PyError String :=
  match l.get? i with
  | some v => .ok v
  | none => .error .indexError

/-- The value of a decimal digit character. -/
def digit_val (c : Char) : Option Nat :=
  if c.isDigit then some (c.toNat - 48) else none

/-- The value of a non-empty all-digit character list, base 10. -/
def digits_val (cs : List Char) : Option Nat :=
  match cs with
  | [] => none
  | _ =>
    cs.foldl
      (fun acc c =>
        match acc, digit_val c with
        | some n, some d => some (10 * n + d)
        | _, _ => none)
      (some 0)

/-- Python `int(s)` on the strings arising here (optionally signed decimal
literals): ValueError when not numeric. -/
def py_int (s : String) : Except PyError Int :=
  match s.toList with
  | '-' :: rest =>
    match digits_val rest with
    | some n => .ok (-(n : Int))
    | none => .error .valueError
  | cs =>
    match digits_val cs with
    | some n => .ok (n : Int)
    | none => .error .valueError

/-- Outcome of `Server.verify_identify`: either the bearer payload
`<ownerId>:<token>` (a `str`, let through to the handler) or the
`web.HTTPForbidden()` response. -/
inductive VerifyResult where
  | ok (bearer : String)
  | forbidden
deriving DecidableEq

/-- `Server.verify_identify` (shorter.py:142-147).  A missing or empty
`authorization` header is rejected with Forbidden; otherwise the code runs
`bearer.split(maxsplit=1)[1]` and `.split(':')[1]` — either indexing raises
IndexError when the header lacks the field — and finally checks membership
of the token in the redis set `us_auth` (`self.redis.sismember`). -/
def verify_identify (us_auth : List String) (auth_header : Option String) :
    Except PyError VerifyResult :=
  match auth_header with
  | none => .ok VerifyResult.forbidden
  | some bearer0 =>
    if bearer0 == "" then .ok VerifyResult.forbidden
    else
      match py_index (py_split_ws1 bearer0) 1 with
      | .error e => .error e
      | .ok bearer =>
        match py_index (py_split_colon bearer) 1 with
        | .error e => .error e
        | .ok token =>
          if us_auth.contains token then .ok (VerifyResult.ok bearer)
          else .ok VerifyResult.forbidden

/-- Responses `Server.handle_redirect` can produce. -/
inductive Response where
  | movedPermanently (location : String)
  | badRequest
  | helpPage
deriving DecidableEq

/-- What one call of `Server.handle_redirect` did: the response, whether the
sqlite store was queried, and the `save_query_result` cache writes that were
scheduled with `asyncio.run_coroutine_threadsafe` (fire-and-forget: the
response is returned without awaiting them, so the redis cache passed in is
not modified by the call itself). -/
structure RedirectOutcome where
  response : Response
  store_queried : Bool
  scheduled_cache_writes : List (String × String)
deriving DecidableEq

/-- Python truthiness of the walrus condition `if x := expr:` for an
optional string/bytes value: `None` and the empty string are falsy. -/
def truthy_str (o : Option String) : Option String :=
  match o with
  | some s => if s == "" then none else some s
  | none => none

/-- `redis.get`: the value stored under `key`, if any. -/
def redis_get (cache : List (String × String)) (key : String) : Option String :=
  match cache.find? (fun kv => kv.1 == key) with
  | some kv => some kv.2
  | none => none

/-- `Server.handle_redirect` (shorter.py:107-119).  With no url match the
help page is served.  A truthy cached value other than the sentinel "Null"
is returned as the redirect target; the sentinel gives HTTPBadRequest
without touching the store.  On a cache miss the store is queried: a truthy
result schedules `save_query_result(url, result)` and — the handler passes
`url`, which still holds the short code, to `HTTPMovedPermanently` instead
of `result` — redirects to the short code itself; no result schedules
`save_query_result(url, "Null")` and returns HTTPBadRequest. -/
def handle_redirect (cache : List (String × String)) (mapper : List MapperRow)
    (url_match : Option String) : RedirectOutcome :=
  match url_match with
  | none => ⟨Response.helpPage, false, []⟩
  | some url =>
    if url == "" then ⟨Response.helpPage, false, []⟩
    else
      match truthy_str (redis_get cache ("us_" ++ url)) with
      | some redis_result =>
        if !(redis_result == "Null") then ⟨Response.movedPermanently redis_result, false, []⟩
        else ⟨Response.badRequest, false, []⟩
      | none =>
        match truthy_str (query_url mapper url) with
        | some result =>
          ⟨Response.movedPermanently url, true, [("us_" ++ url, result)]⟩
        | none =>
          ⟨Response.badRequest, true, [("us_" ++ url, "Null")]⟩

/-- redis `SADD`: add a member to a set (no duplicates). -/
def sadd (s : List String) (x : String) : List String :=
  if s.contains x then s else s ++ [x]

/-- Responses of `Server.handle_add_user`. -/
inductive AddUserResponse where
  | forbidden
  | badRequest
  | jsonResult (result : String)
deriving DecidableEq

/-- `Server.handle_add_user` (shorter.py:93-105).  Requires the X-Real-IP
header to be 127.0.0.1 and a non-zero posted id; then inserts an authorized
key, adds the new token to the redis `us_auth` set and returns it.
`super_user` stands for `bool(field.get('super_user', 'false').lower())`. -/
def handle_add_user (users : List UserRow) (us_auth : List String) (x_real_ip : String)
    (user_id : Int) (digest : List Nat) (super_user : Bool) :
    Except PyError (AddUserResponse × List UserRow × List String) :=
  if !(x_real_ip == "127.0.0.1") then .ok (AddUserResponse.forbidden, users, us_auth)
  else if !(user_id == 0) then
    match insert_authorized_key users user_id digest super_user with
    | .error e => .error e
    | .ok (r, users2) => .ok (AddUserResponse.jsonResult r, users2, sadd us_auth r)
  else .ok (AddUserResponse.badRequest, users, us_auth)

/-- Responses of `Server.handle_delete_user`. -/
inductive DeleteUserResponse where
  | forbidden
  | badRequest
  | jsonOk
deriving DecidableEq

/-- `Server.handle_delete_user` (shorter.py:85-91).  Requires X-Real-IP
127.0.0.1 and a non-zero id, then calls `UrlDatabase.delete_user` and
answers with the ok JSON.  Nothing is removed from the redis `us_auth`
membership set, so it is returned unchanged. -/
def handle_delete_user (users : List UserRow) (us_auth : List String) (x_real_ip : String)
    (user_id : Int) : DeleteUserResponse × List UserRow × List String :=
  if !(x_real_ip == "127.0.0.1") then (DeleteUserResponse.forbidden, users, us_auth)
  else if !(user_id == 0) then
    (DeleteUserResponse.jsonOk, delete_user users user_id, us_auth)
  else (DeleteUserResponse.badRequest, users, us_auth)

/-- Responses of `Server.handle_revoke_key`. -/
inductive RevokeResponse where
  | forbidden
  | jsonKey (key : String)
deriving DecidableEq

/-- `Server.handle_revoke_key` (shorter.py:166-170).  After
`verify_identify`, the owner id is `int(bearer.split(':')[0])` and
`update_authorized_key` produces the new key, which is returned as JSON.
The redis `us_auth` set is not touched: the new key is not added and the old
one is not removed. -/
def handle_revoke_key (users : List UserRow) (us_auth : List String)
    (auth_header : Option String) (digest : List Nat) :
    Except PyError (RevokeResponse × List UserRow × List String) :=
  match verify_identify us_auth auth_header with
  | .error e => .error e
  | .ok VerifyResult.forbidden => .ok (RevokeResponse.forbidden, users, us_auth)
  | .ok (VerifyResult.ok bearer) =>
    match py_index (py_split_colon bearer) 0 with
    | .error e => .error e
    | .ok uid_str =>
      match py_int uid_str with
      | .error e => .error e
      | .ok uid =>
        match update_authorized_key users uid digest with
        | .error e => .error e
        | .ok (new_key, users2) => .ok (RevokeResponse.jsonKey new_key, users2, us_auth)

/-- A concrete 32-byte digest (all zero bytes) for concrete scenarios. -/
def digest0 : List Nat := List.replicate 32 0

/-- The hexdigest token of `digest0` (64 zero characters). -/
def token0 : String := hexdigest digest0

/-- A second concrete 32-byte digest (all bytes one). -/
def digest1 : List Nat := List.replicate 32 1

/-- The hexdigest token of `digest1`. -/
def token1 : String := hexdigest digest1

end UrlShorter

deriving instance DecidableEq for Except

namespace UrlShorter

/-- Splitting the empty header yields no fields. -/
theorem py_split_ws1_empty : py_split_ws1 "" = [] := rfl

/-- Mapping a function that fixes every element of a list is the identity. -/
theorem list_map_fix {α : Type} (l : List α) (f : α → α) (h : ∀ a ∈ l, f a = a) :
    l.map f = l := by
  induction l with
  | nil => rfl
  | cons x xs ih =>
    simp only [List.map_cons]
    rw [h x (by simp), ih (fun a ha => h a (by simp [ha]))]

/-- A hexdigest has two characters per digest byte. -/
theorem hex_of_bytes_length (d : List Nat) : (hex_of_bytes d).length = 2 * d.length := by
  induction d with
  | nil => rfl
  | cons b t ih =>
    show (hex_byte b ++ hex_of_bytes t).length = 2 * (t.length + 1)
    rw [List.length_append, ih]
    simp only [hex_byte, List.length_cons, List.length_nil]
    omega

/-- The hex table lookup stays inside the hex alphabet for indices below 16. -/
theorem hex_char_mem : ∀ i < 16, hex_chars.toList.getD i '?' ∈ hex_chars.toList := by decide

/-- Both characters of a byte below 256 are hex characters. -/
theorem hex_byte_mem (b : Nat) (hb : b < 256) : ∀ c ∈ hex_byte b, c ∈ hex_chars.toList := by
  intro c hc
  simp only [hex_byte, List.mem_cons, List.not_mem_nil, or_false] at hc
  rcases hc with h | h
  · subst h; exact hex_char_mem _ (by omega)
  · subst h; exact hex_char_mem _ (by omega)

/-- Every character of a hexdigest of bytes is a hex character. -/
theorem hex_of_bytes_mem (d : List Nat) (hd : ∀ b ∈ d, b < 256) :
    ∀ c ∈ hex_of_bytes d, c ∈ hex_chars.toList := by
  intro c hc
  simp only [hex_of_bytes, List.mem_flatten, List.mem_map] at hc
  rcases hc with ⟨l, ⟨b, hb, rfl⟩, hcl⟩
  exact hex_byte_mem b (hd b hb) c hcl

/-- Claim C1: after createMapping(url, o) returns code c, resolving c through
the redirect handler is supposed to return url, the stored target.  The code
violates this: on a cache miss with a store hit, handle_redirect
(shorter.py:117) passes the variable still holding the short code to
HTTPMovedPermanently instead of the queried target.  With the mapping
AbCdEfGhIj -> https://example.com/page stored and an empty cache, the
response redirects to the short code itself, which differs from the stored
target. -/
theorem C1_redirect_returns_short_code :
    handle_redirect [] [⟨"AbCdEfGhIj", 1, "https://example.com/page", 0⟩] (some "AbCdEfGhIj")
      = ⟨Response.movedPermanently "AbCdEfGhIj", true,
         [("us_AbCdEfGhIj", "https://example.com/page")]⟩ ∧
    ("AbCdEfGhIj" : String) ≠ "https://example.com/page" := by decide

/-- Claim C2: createMapping called twice with the same targetUrl is supposed
to return the same code both times.  The code violates this at the first
call already: for a targetUrl not yet in the mapper table, insert_url
(libsqlite.py:150) calls hashlib.sha256 on an unencoded str, which raises
TypeError instead of returning any code. -/
theorem C2_first_create_raises_type_error :
    insert_url [] "https://google.com/" 1 "0.8444218515250481" 1600000000
      = Except.error (PyError.typeError "Strings must be encoded before hashing") := by decide

/-- Claim C3: deleteMapping is supposed to return NotFound only when the code
does not exist, NotOwner on an ownership mismatch, and otherwise delete the
row.  The code violates this: delete_url (libsqlite.py:160) filters on the
nonexistent column "short_url" (the column is short_name), which SQLite
treats as the string literal 'short_url', so the lookup matches no row and
the owner's delete of an existing code returns NotFound with the row kept. -/
theorem C3_owner_delete_returns_not_found :
    delete_url [⟨"abc", 1, "https://example.com/", 1600000000⟩] "abc" 1
      = (some StatusCode.NotFound, [⟨"abc", 1, "https://example.com/", 1600000000⟩]) := by decide

/-- Claim C4: after revokeOwner, validating the previously issued token is
supposed to fail with Unauthorized.  The code violates this: issuing a key
for owner 1 stores token0 and adds it to the cached membership set, and
validation succeeds; but handle_delete_user does not touch the redis
us_auth set and delete_user never commits its DELETE (the transaction is
rolled back on close), so afterwards both states are unchanged and the old
token still validates successfully. -/
theorem C4_revoked_token_still_validates :
    handle_add_user [] [] "127.0.0.1" 1 digest0 true
      = Except.ok (AddUserResponse.jsonResult token0, [⟨1, token0, true⟩], [token0]) ∧
    verify_identify [token0] (some ("Bearer 1:" ++ token0))
      = Except.ok (VerifyResult.ok ("1:" ++ token0)) ∧
    handle_delete_user [⟨1, token0, true⟩] [token0] "127.0.0.1" 1
      = (DeleteUserResponse.jsonOk, [⟨1, token0, true⟩], [token0]) ∧
    verify_identify [token0] (some ("Bearer 1:" ++ token0))
      = Except.ok (VerifyResult.ok ("1:" ++ token0)) := by decide

/-- Claim C5: after rotateKey, validating the old token is supposed to fail
and validating the new token to succeed.  The code violates both parts:
handle_revoke_key stores token1 in the users table but never updates the
redis us_auth set, so against the resulting cache the old token0 still
validates and the fresh token1 is rejected. -/
theorem C5_rotate_leaves_cache_stale :
    handle_revoke_key [⟨1, token0, false⟩] [token0] (some ("Bearer 1:" ++ token0)) digest1
      = Except.ok (RevokeResponse.jsonKey token1, [⟨1, token1, false⟩], [token0]) ∧
    verify_identify [token0] (some ("Bearer 1:" ++ token0))
      = Except.ok (VerifyResult.ok ("1:" ++ token0)) ∧
    verify_identify [token0] (some ("Bearer 1:" ++ token1))
      = Except.ok VerifyResult.forbidden ∧
    token0 ≠ token1 := by decide

/-- Claim C6: for an unmapped targetUrl, createMapping is supposed to
generate a fresh code, retry on primary-key collision, and always complete
the insert.  The code violates this: insert_url performs a single
generation attempt with no retry loop, and that attempt raises TypeError
(sha256 of an unencoded str) before any insert, so the insert never
completes for a new URL. -/
theorem C6_no_collision_retry_generation_raises :
    insert_url [⟨"AbCdEfGhIj", 1, "https://a.example/", 0⟩] "https://b.example/" 2
        "0.13436424411240122" 1600000001
      = Except.error (PyError.typeError "Strings must be encoded before hashing") := by decide

/-- Claim C7 counterexample: tokens issued by insert_authorized_key are
claimed to be 10-character base-62 strings; on the concrete all-zero
32-byte digest the issued token is the 64-character hexdigest, not a
10-character string. -/
theorem C7_token_not_base62_10 :
    insert_authorized_key [] 1 digest0 false
      = Except.ok (token0, [⟨1, token0, false⟩]) ∧
    token0.length = 64 ∧ token0.length ≠ 10 := by decide

/-- Claim C7, amended: tokens returned by issueKey (insert_authorized_key)
and rotateKey (update_authorized_key) are the full 64-character lowercase
hexadecimal SHA-256 hexdigest of the owner id concatenated with a random
salt — neither base-62 encoded nor truncated to 10 characters — while the
code generator path for short codes (generate_string / insert_url) raises
TypeError because it hashes an unencoded str, so it never yields a code at
all. -/
theorem C7_token_shape (digest : List Nat) (hlen : digest.length = 32)
    (hbytes : ∀ b ∈ digest, b < 256) :
    (hexdigest digest).length = 64 ∧
    (∀ c ∈ (hexdigest digest).toList, c ∈ hex_chars.toList) ∧
    (∀ users user_id su tok users2,
       insert_authorized_key users user_id digest su = Except.ok (tok, users2) →
       tok = hexdigest digest) ∧
    (∀ users user_id tok users2,
       update_authorized_key users user_id digest = Except.ok (tok, users2) →
       tok = hexdigest digest) ∧
    (∀ s, sha256_of_str s
       = Except.error (PyError.typeError "Strings must be encoded before hashing")) := by
  refine ⟨?_, ?_, ?_, ?_, fun s => rfl⟩
  · show (hex_of_bytes digest).length = 64
    rw [hex_of_bytes_length, hlen]
  · intro c hc
    exact hex_of_bytes_mem digest hbytes c hc
  · intro users user_id su tok users2 h
    simp only [insert_authorized_key] at h
    split at h
    · exact absurd h (by simp)
    · simp only [Except.ok.injEq, Prod.mk.injEq] at h
      exact h.1.symm
  · intro users user_id tok users2 h
    simp only [update_authorized_key] at h
    split at h
    · exact absurd h (by simp)
    · simp only [Except.ok.injEq, Prod.mk.injEq] at h
      exact h.1.symm

/-- Witness for C7_token_shape at the concrete all-zero digest. -/
theorem C7_token_shape_witness :
    digest0.length = 32 ∧ (hexdigest digest0).length = 64 :=
  ⟨by decide, (C7_token_shape digest0 (by decide) (by decide)).1⟩

/-- Claim C8: when the cache holds the negative sentinel "Null" for a code,
handle_redirect reports unresolved (HTTPBadRequest) without querying the
store and without scheduling any cache write; and on a cache miss where the
store has no mapping, it reports unresolved and schedules a fire-and-forget
save_query_result write of the sentinel, returning without waiting for it
(the write appears only in the scheduled list, the cache itself is
untouched by the call). -/
theorem C8_negative_sentinel (cache : List (String × String)) (mapper : List MapperRow)
    (code : String) (hne : code ≠ "") :
    (truthy_str (redis_get cache ("us_" ++ code)) = some "Null" →
       handle_redirect cache mapper (some code) = ⟨Response.badRequest, false, []⟩) ∧
    (truthy_str (redis_get cache ("us_" ++ code)) = none →
     query_url mapper code = none →
       handle_redirect cache mapper (some code)
         = ⟨Response.badRequest, true, [("us_" ++ code, "Null")]⟩) := by
  constructor
  · intro h
    simp [handle_redirect, hne, h]
  · intro h1 h2
    have h2t : truthy_str (query_url mapper code) = none := by
      rw [h2]
      rfl
    simp [handle_redirect, hne, h1, h2t]

/-- Witness for C8_negative_sentinel: a cached sentinel for code abc short
circuits to unresolved, and a double miss for code xyz schedules the
sentinel write. -/
theorem C8_negative_sentinel_witness :
    handle_redirect [("us_abc", "Null")] [] (some "abc") = ⟨Response.badRequest, false, []⟩ ∧
    handle_redirect [] [] (some "xyz") = ⟨Response.badRequest, true, [("us_xyz", "Null")]⟩ :=
  ⟨(C8_negative_sentinel [("us_abc", "Null")] [] "abc" (by decide)).1 (by decide),
   (C8_negative_sentinel [] [] "xyz" (by decide)).2 (by decide) (by decide)⟩

/-- Claim C9 counterexample: validateToken is claimed to evaluate totally to
success or Unauthorized on every header; on the concrete header "Bearer
malformed", which has no colon, verify_identify instead raises IndexError
(an unrelated error). -/
theorem C9_malformed_header_raises :
    verify_identify ["token0"] (some "Bearer malformed") = Except.error PyError.indexError ∧
    verify_identify ["token0"] (some "Bearermalformed") = Except.error PyError.indexError := by
  decide

/-- Claim C9, amended: an absent or empty authorization header yields
Unauthorized (Forbidden); a header whose whitespace split has a second
field containing a colon yields success exactly when the token after the
first colon is in the authorized set and Unauthorized otherwise; but a
non-empty header lacking the space-separated second field, or whose second
field lacks a colon, raises IndexError rather than Unauthorized. -/
theorem C9_header_parsing (us_auth : List String) (hdr rest tok : String) :
    verify_identify us_auth none = Except.ok VerifyResult.forbidden ∧
    verify_identify us_auth (some "") = Except.ok VerifyResult.forbidden ∧
    (hdr ≠ "" → (py_split_ws1 hdr)[1]? = none →
       verify_identify us_auth (some hdr) = Except.error PyError.indexError) ∧
    (hdr ≠ "" → (py_split_ws1 hdr)[1]? = some rest →
     (py_split_colon rest)[1]? = none →
       verify_identify us_auth (some hdr) = Except.error PyError.indexError) ∧
    (hdr ≠ "" → (py_split_ws1 hdr)[1]? = some rest →
     (py_split_colon rest)[1]? = some tok → us_auth.contains tok = true →
       verify_identify us_auth (some hdr) = Except.ok (VerifyResult.ok rest)) ∧
    (hdr ≠ "" → (py_split_ws1 hdr)[1]? = some rest →
     (py_split_colon rest)[1]? = some tok → us_auth.contains tok = false →
       verify_identify us_auth (some hdr) = Except.ok VerifyResult.forbidden) := by
  refine ⟨rfl, rfl, ?_, ?_, ?_, ?_⟩
  · intro hne h1
    simp [verify_identify, py_index, hne, h1]
  · intro hne h1 h2
    simp [verify_identify, py_index, hne, h1, h2]
  · intro hne h1 h2 h3
    have h3m : tok ∈ us_auth := by simpa using h3
    simp [verify_identify, py_index, hne, h1, h2, h3m]
  · intro hne h1 h2 h3
    have h3m : tok ∉ us_auth := by simpa using h3
    simp [verify_identify, py_index, hne, h1, h2, h3m]

/-- Witness for C9_header_parsing: the well-formed header for a cached token
validates, giving the bearer payload. -/
theorem C9_header_parsing_witness :
    verify_identify ["tokenA"] (some "Bearer 1:tokenA")
      = Except.ok (VerifyResult.ok "1:tokenA") :=
  (C9_header_parsing ["tokenA"] "Bearer 1:tokenA" "1:tokenA" "tokenA").2.2.2.2.1
    (by decide) (by decide) (by decide) (by decide)

/-- Claim C10: for an owner id with no row in the users table, rotating the
key still succeeds: update_authorized_key runs an UPDATE matching no rows
and returns the fresh hexdigest, handle_revoke_key answers with that token
while both the users table and the cached membership set are unchanged, and
since the token was stored nowhere, any bearer header presenting it fails
validation. -/
theorem C10_rotate_unknown_owner (users : List UserRow) (us_auth : List String)
    (uid : Int) (hdr scheme payload uid_str caller_tok : String) (digest : List Nat)
    (h1 : py_split_ws1 hdr = [scheme, payload])
    (h2 : py_split_colon payload = [uid_str, caller_tok])
    (h3 : us_auth.contains caller_tok = true)
    (h4 : py_int uid_str = Except.ok uid)
    (h5 : ∀ row ∈ users, row.id ≠ uid)
    (h6 : us_auth.contains (hexdigest digest) = false) :
    handle_revoke_key users us_auth (some hdr) digest
      = Except.ok (RevokeResponse.jsonKey (hexdigest digest), users, us_auth) ∧
    (∀ hdr2 scheme2 payload2,
       py_split_ws1 hdr2 = [scheme2, payload2] →
       (py_split_colon payload2)[1]? = some (hexdigest digest) →
       verify_identify us_auth (some hdr2) = Except.ok VerifyResult.forbidden) := by
  have hne : hdr ≠ "" := by
    intro he
    rw [he, py_split_ws1_empty] at h1
    exact List.noConfusion h1
  have hfilter : users.filter (fun row => row.id == uid) = [] := by
    rw [List.filter_eq_nil_iff]
    intro row hrow
    simpa using h5 row hrow
  have hmap : users.map
      (fun row => if row.id == uid then { row with string := hexdigest digest } else row)
      = users := by
    apply list_map_fix
    intro row hrow
    have hb : (row.id == uid) = false := by simpa using h5 row hrow
    simp [hb]
  have hupd : update_authorized_key users uid digest = Except.ok (hexdigest digest, users) := by
    simp only [update_authorized_key, hfilter, hmap]
    simp
  constructor
  · have h3m : caller_tok ∈ us_auth := by simpa using h3
    have hver : verify_identify us_auth (some hdr) = Except.ok (VerifyResult.ok payload) := by
      simp [verify_identify, py_index, hne, h1, h2, h3m]
    simp [handle_revoke_key, hver, py_index, h2, h4, hupd]
  · intro hdr2 scheme2 payload2 g1 g2
    have hne2 : hdr2 ≠ "" := by
      intro he
      rw [he, py_split_ws1_empty] at g1
      exact List.noConfusion g1
    have h6m : hexdigest digest ∉ us_auth := by simpa using h6
    simp [verify_identify, py_index, hne2, g1, g2, h6m]

/-- Witness for C10_rotate_unknown_owner: owner 1 has no users row; the
caller authenticates with a cached token, receives the fresh token for the
all-zero digest, and the state is unchanged. -/
theorem C10_rotate_unknown_owner_witness :
    handle_revoke_key [⟨2, "sometoken", false⟩] ["callertok"]
        (some "Bearer 1:callertok") digest0
      = Except.ok (RevokeResponse.jsonKey (hexdigest digest0),
          [⟨2, "sometoken", false⟩], ["callertok"]) :=
  (C10_rotate_unknown_owner [⟨2, "sometoken", false⟩] ["callertok"] 1
    "Bearer 1:callertok" "Bearer" "1:callertok" "1" "callertok" digest0
    (by decide) (by decide) (by decide) (by decide) (by decide) (by decide)).1

end UrlShorter
